import Mathlib

/-!
Verification of the tool-augmented answer-generation core of the
course-materials RAG system.

Part 1 embeds `backend/ai_generator.py` (the Conversation Orchestrator):
the bounded multi-round loop `AIGenerator.generate_response`, the tool
execution helper `_execute_tools_and_update_conversation`, and the forced
final call `_make_final_call_without_tools`.

Part 2 models the Retrieval Engine (`VectorStore` / `SearchResults`) and the
content-search tool (`CourseSearchTool`), whose implementation files are not
part of the shown sources; they are modelled from the specification and
constrained by the repository's test suite.

Python iteration is embedded as structural recursion, Python exceptions as
`Except`, Python `None` as `Option`, and the external model endpoint as the
list of responses it will return (one per outbound API call, in order, the
way the tests script it with `side_effect`); an exhausted list models a model
call that raises, which `generate_response` does not catch.
-/

namespace RagCore

/-- Keyword arguments of one tool call (`content_block.input`). -/
abbrev ToolInput := List (String × String)

/-- One tool schema as advertised to the model; its contents are opaque to the
orchestrator, which only forwards it. -/
abbrev ToolSchema := String

/-- One content block of a model response.  A text block carries `text`; a
tool-use block carries `name`, `id` and `input`.  Reading `text` off a block
that has none is a Python `AttributeError`, hence `text : Option String`. -/
structure ContentBlock where
  type : String
  text : Option String
  name : String
  id : String
  input : ToolInput
  deriving DecidableEq

/-- One response of the generative model endpoint. -/
structure ModelResponse where
  stop_reason : String
  content : List ContentBlock
  deriving DecidableEq

/-- One entry of the aggregated tool-result message
(`{"type": "tool_result", "tool_use_id": ..., "content": ..., "is_error": ...}`);
`is_error = true` models the presence of the `"is_error": True` key. -/
structure ToolResult where
  tool_use_id : String
  content : String
  is_error : Bool
  deriving DecidableEq

/-- Payload of one conversation turn: the initial plain-text user query, an
assistant turn holding the model's content blocks, or a user turn holding the
aggregated tool results. -/
inductive MessageContent where
  | text (s : String)
  | blocks (bs : List ContentBlock)
  | toolResults (rs : List ToolResult)
  deriving DecidableEq

/-- One conversation turn (`{"role": ..., "content": ...}`). -/
structure Message where
  role : String
  content : MessageContent
  deriving DecidableEq

/-- One outbound API call: the messages sent and the tool schemas included in
the request (`none` when the `"tools"` key is absent). -/
structure ApiCall where
  messages : List Message
  toolsSent : Option (List ToolSchema)
  deriving DecidableEq

/-- Observable outcome of one `generate_response` run: the returned text
(`none` models a crash: an uncaught model-call failure or an unguarded
attribute/index access), the trace of outbound API calls, and the trace of
tool executions (name and kwargs, in execution order). -/
structure GenOutcome where
  result : Option String
  apiCalls : List ApiCall
  toolExecs : List (String × ToolInput)
  deriving DecidableEq

/-- The tool-execution capability (`tool_manager.execute_tool`): given a tool
name and kwargs it returns text, or raises (`Except.error` carries the
exception message). -/
abbrev ToolManager := String → ToolInput → Except String String

/-- The unguarded `response.content[0].text` read: `none` on an empty content
list or on a first block with no text attribute. -/
def firstText : List ContentBlock → Option String
  | [] => none
  | b :: _ => b.text

/-- Python truthiness of the `tools` argument (`if tools:`): `None` and the
empty list are both falsy. -/
def toolsTruthy : Option (List ToolSchema) → Bool
  | none => false
  | some ts => !ts.isEmpty

/-- Tool schemas included in a round's API request: present exactly when
`tools` is truthy. -/
def sentTools (tools : Option (List ToolSchema)) : Option (List ToolSchema) :=
  if toolsTruthy tools then tools else none

/-- Execution of one tool-use block: on success a plain tool result, on an
exception with message `m` an error-flagged result whose text is
`"Error executing tool: " ++ m`.  The second component records the execution
(name and kwargs) for the trace. -/
def execOne (tm : ToolManager) (b : ContentBlock) : ToolResult × (String × ToolInput) :=
  match tm b.name b.input with
  | Except.ok res => (⟨b.id, res, false⟩, (b.name, b.input))
  | Except.error m => (⟨b.id, "Error executing tool: " ++ m, true⟩, (b.name, b.input))

/-- Embedding of `AIGenerator._execute_tools_and_update_conversation`: append
the assistant's tool-use turn, execute every `tool_use`-typed block in order,
and append the collected results as a single user turn (only when at least one
result was produced).  Returns the updated messages and the execution trace. -/
def executeToolsAndUpdateConversation (tm : ToolManager) (response : ModelResponse)
    (messages : List Message) : List Message × List (String × ToolInput) :=
  let messages := messages ++ [⟨"assistant", MessageContent.blocks response.content⟩]
  let step := response.content.filterMap
    (fun b => if b.type == "tool_use" then some (execOne tm b) else none)
  let tool_results := step.map Prod.fst
  let messages :=
    if tool_results.isEmpty then messages
    else messages ++ [⟨"user", MessageContent.toolResults tool_results⟩]
  (messages, step.map Prod.snd)

/-- Embedding of the `while current_round < max_rounds` loop of
`AIGenerator.generate_response`, with fuel = the number of remaining loop
iterations.  At fuel 0 the loop has exhausted its rounds and
`_make_final_call_without_tools` runs: one more API call whose request carries
no tool schemas.  Inside a round the request carries the schemas when `tools`
is truthy; a response whose stop reason is `"tool_use"` with a tool manager
present and truthy tools executes the tools and advances the round, any other
response terminates the loop with `response.content[0].text`. -/
def runRounds (tools : Option (List ToolSchema)) (tm : Option ToolManager) :
    Nat → List Message → List ModelResponse → GenOutcome
  | 0, messages, [] =>
      ⟨none, [⟨messages, none⟩], []⟩
  | 0, messages, r :: _ =>
      ⟨firstText r.content, [⟨messages, none⟩], []⟩
  | _ + 1, messages, [] =>
      ⟨none, [⟨messages, sentTools tools⟩], []⟩
  | n + 1, messages, r :: rest =>
      match tm with
      | some tmv =>
          if r.stop_reason == "tool_use" && toolsTruthy tools then
            let step := executeToolsAndUpdateConversation tmv r messages
            let out := runRounds tools tm n step.1 rest
            ⟨out.result, ⟨messages, sentTools tools⟩ :: out.apiCalls,
              step.2 ++ out.toolExecs⟩
          else
            ⟨firstText r.content, [⟨messages, sentTools tools⟩], []⟩
      | none =>
          ⟨firstText r.content, [⟨messages, sentTools tools⟩], []⟩

/-- Embedding of `AIGenerator.generate_response`: the conversation starts with
exactly one user turn holding the query verbatim, `current_round` starts at 0,
and the loop runs while `current_round < max_rounds` — for a Python `int`
bound that is `max_rounds.toNat` iterations at most (none when
`max_rounds ≤ 0`). -/
def generate_response (query : String) (tools : Option (List ToolSchema))
    (tool_manager : Option ToolManager) (max_rounds : Int)
    (responses : List ModelResponse) : GenOutcome :=
  runRounds tools tool_manager max_rounds.toNat
    [⟨"user", MessageContent.text query⟩] responses

/-! ## Part 2: Retrieval Engine and content-search tool, modelled from the spec -/

/-- An ASCII single-quote character as a string (used verbatim inside the
user-visible error messages). -/
def squote : String := "\x27"

/-- Modelled from the spec: `vector_store.py` is missing from the shown
sources; metadata of one content match as the content-search tool reads it
(course title, optional lesson number), per spec section 4.2. -/
structure ChunkMetadata where
  course_title : String
  lesson_number : Option Int
  deriving DecidableEq

/-- Modelled from the spec: one nearest-neighbor match of the retrieval
backend (matched text, metadata mapping, relevance distance), the parallel
index `i` of the three envelope sequences. -/
structure SearchMatch where
  document : String
  metadata : ChunkMetadata
  distance : ℚ
  deriving DecidableEq

/-- Modelled from the spec: the `SearchResults` result envelope of
`vector_store.py` — parallel sequences of documents, metadata and distances,
plus an optional error message. -/
structure SearchResults where
  documents : List String
  metadata : List ChunkMetadata
  distances : List ℚ
  error : Option String
  deriving DecidableEq

/-- Modelled from the spec: `SearchResults.empty(error_msg)` — an
error-carrying envelope with all three sequences empty. -/
def SearchResults.empty (msg : String) : SearchResults :=
  ⟨[], [], [], some msg⟩

/-- Modelled from the spec: wrapping the backend's returned matches into a
`SearchResults` envelope (the `from_chroma` construction) — three parallel
sequences, no error. -/
def SearchResults.fromMatches (ms : List SearchMatch) : SearchResults :=
  ⟨ms.map SearchMatch.document, ms.map SearchMatch.metadata,
    ms.map SearchMatch.distance, none⟩

/-- The envelope invariant of spec section 3: an error-carrying envelope has
all three sequences empty; an error-free envelope has three sequences of equal
length. -/
def SearchResults.wfInvariant (e : SearchResults) : Bool :=
  match e.error with
  | some _ => e.documents.isEmpty && e.metadata.isEmpty && e.distances.isEmpty
  | none =>
      (e.documents.length == e.metadata.length)
        && (e.metadata.length == e.distances.length)

/-- Modelled from the spec: the structural filter expressions the engine sends
to the backend — an equality filter on course title, an equality filter on
lesson number, or their `$and` conjunction (shapes fixed by
`test_build_filter_*` in `test_vector_store.py`). -/
inductive ChromaFilter where
  | courseEq (title : String)
  | lessonEq (n : Int)
  | and (a b : ChromaFilter)
  deriving DecidableEq

/-- Modelled from the spec: the Retrieval Engine (`VectorStore`), with its
external collaborators as functions: `resolveCourseName` is the top-1 catalog
lookup (absent when the catalog yields no match), `contentQuery` is the
backend nearest-neighbor query over the content collection (taking the query
text, an optional filter and the result cap; `Except.error` models a raised
backend exception), `getLessonLink` is the lesson-link lookup used for
citations, and `max_results` is the configured result cap. -/
structure VectorStore where
  resolveCourseName : String → Option String
  contentQuery : String → Option ChromaFilter → Nat → Except String (List SearchMatch)
  getLessonLink : String → Int → Option String
  max_results : Nat

/-- Modelled from the spec: `_build_filter(course_title, lesson_number)` — no
filter when both are absent, a single equality filter when one is given, the
`$and` conjunction when both are. -/
def VectorStore.buildFilter : Option String → Option Int → Option ChromaFilter
  | none, none => none
  | some c, none => some (ChromaFilter.courseEq c)
  | none, some l => some (ChromaFilter.lessonEq l)
  | some c, some l => some (ChromaFilter.and (ChromaFilter.courseEq c) (ChromaFilter.lessonEq l))

/-- Modelled from the spec: the guarded backend call inside `search` — any
backend exception with message `m` is caught and converted to an envelope with
error `"Search error: " ++ m`; a successful call is wrapped into an error-free
envelope. -/
def VectorStore.execQuery (vs : VectorStore) (query : String)
    (filter : Option ChromaFilter) : SearchResults :=
  match vs.contentQuery query filter vs.max_results with
  | Except.ok ms => SearchResults.fromMatches ms
  | Except.error m => SearchResults.empty ("Search error: " ++ m)

/-- Modelled from the spec: `VectorStore.search(query, course_name,
lesson_number)` — when a course name is given it is first resolved; a failed
resolution yields the `"No course found matching '<name>'"` envelope and no
backend query; otherwise the filter is built from the resolved title and the
guarded backend query runs. -/
def VectorStore.search (vs : VectorStore) (query : String)
    (course_name : Option String) (lesson_number : Option Int) : SearchResults :=
  match course_name with
  | some cn =>
      match vs.resolveCourseName cn with
      | none =>
          SearchResults.empty ("No course found matching " ++ squote ++ cn ++ squote)
      | some title =>
          vs.execQuery query (VectorStore.buildFilter (some title) lesson_number)
  | none => vs.execQuery query (VectorStore.buildFilter none lesson_number)

/-- Modelled from the spec: the content-search tool (`CourseSearchTool` of
`search_tools.py`) with its per-tool last-citations slot (`last_sources`). -/
structure CourseSearchTool where
  store : VectorStore
  last_sources : List String

/-- Modelled from the spec: the display label of one match — course title
plus, when present, the lesson number. -/
def sourceLabel (md : ChunkMetadata) : String :=
  match md.lesson_number with
  | some n => md.course_title ++ " - Lesson " ++ toString n
  | none => md.course_title

/-- Modelled from the spec: one citation per match — the label text plus a
resolvable lesson link when a lesson number is present, the link omitted when
none is resolvable (the `"label|link"` shape fixed by `test_search_tools.py`). -/
def citationFor (vs : VectorStore) (md : ChunkMetadata) : String :=
  match md.lesson_number with
  | some n =>
      match vs.getLessonLink md.course_title n with
      | some link => sourceLabel md ++ "|" ++ link
      | none => sourceLabel md
  | none => sourceLabel md

/-- Modelled from the spec: one formatted evidence block — a bracketed label
followed by the matched text. -/
def formatBlock (md : ChunkMetadata) (doc : String) : String :=
  "[" ++ sourceLabel md ++ "]\n" ++ doc

/-- Modelled from the spec: the "no content found" message, naming the
course and/or lesson filter when one was supplied. -/
def noContentMessage (course_name : Option String) (lesson_number : Option Int) : String :=
  "No relevant content found"
    ++ (match course_name with
        | some c => " in course " ++ squote ++ c ++ squote
        | none => "")
    ++ (match lesson_number with
        | some n => " in lesson " ++ toString n
        | none => "")

/-- Modelled from the spec: `CourseSearchTool.execute` — delegates to the
engine's `search`; an error envelope returns the error verbatim and clears the
citations; an empty envelope returns the filter-naming "no content" message
and clears the citations; otherwise formats one block per match (blank-line
separated) and replaces `last_sources` with one citation per match, in match
order.  Returns the text and the updated tool state. -/
def CourseSearchTool.execute (tool : CourseSearchTool) (query : String)
    (course_name : Option String) (lesson_number : Option Int) :
    String × CourseSearchTool :=
  let results := tool.store.search query course_name lesson_number
  match results.error with
  | some err => (err, { tool with last_sources := [] })
  | none =>
      if results.documents.isEmpty then
        (noContentMessage course_name lesson_number, { tool with last_sources := [] })
      else
        let pairs := results.documents.zip results.metadata
        (String.intercalate "\n\n" (pairs.map (fun p => formatBlock p.2 p.1)),
          { tool with last_sources := pairs.map (fun p => citationFor tool.store p.2) })

/-! ## Concrete fixtures (mirroring the mocks of the test suite) -/

/-- A plain text content block carrying the given text. -/
def textBlock (t : String) : ContentBlock := ⟨"text", some t, "", "", []⟩

/-- A tool-use content block with the given tool name and call id. -/
def toolUseBlock (nm i : String) : ContentBlock :=
  ⟨"tool_use", none, nm, i, [("query", "test")]⟩

/-- A tool-use block that also carries a text attribute, as the mock of
`test_tool_execution_without_tool_manager` does. -/
def toolUseBlockWithText : ContentBlock :=
  ⟨"tool_use", some "I tried to use a tool but could not.", "test_tool", "tool_9", []⟩

/-- A model response requesting one tool call. -/
def toolUseResponse : ModelResponse :=
  ⟨"tool_use", [toolUseBlock "search_course_content" "tool_123"]⟩

/-- A model response requesting two tool calls in order. -/
def twoToolResponse : ModelResponse :=
  ⟨"tool_use", [toolUseBlock "search_course_content" "tool_1",
                toolUseBlock "get_course_outline" "tool_2"]⟩

/-- A model response whose stop reason is tool use but whose first block also
has a text attribute. -/
def toolUseTextResponse : ModelResponse := ⟨"tool_use", [toolUseBlockWithText]⟩

/-- An ordinary-completion model response. -/
def endTurnResponse : ModelResponse :=
  ⟨"end_turn", [textBlock "Final answer after 2 tool rounds."]⟩

/-- A tool manager whose executions always succeed. -/
def okManager : ToolManager := fun _ _ => Except.ok "Tool result"

/-- A tool manager whose executions always raise
`Exception("Tool execution failed")`. -/
def errManager : ToolManager := fun _ _ => Except.error "Tool execution failed"

/-- A vector store whose catalog resolves no course name and whose backend
always raises `Exception("ChromaDB error")`. -/
def failingStore : VectorStore :=
  ⟨fun _ => none, fun _ _ _ => Except.error "ChromaDB error", fun _ _ => none, 5⟩

/-- A vector store that resolves every name to one canonical course and whose
backend returns two matches. -/
def workingStore : VectorStore :=
  ⟨fun _ => some "Python Programming Basics",
   fun _ _ _ => Except.ok
      [⟨"doc one", ⟨"Python Programming Basics", some 1⟩, 1 / 10⟩,
       ⟨"doc two", ⟨"Python Programming Basics", some 2⟩, 2 / 10⟩],
   fun _ _ => some "https://example.com/lesson1", 5⟩

/-- A vector store that resolves every name but whose backend always raises
`Exception("ChromaDB error")`. -/
def resolvingFailingStore : VectorStore :=
  ⟨fun _ => some "Python Programming Basics",
   fun _ _ _ => Except.error "ChromaDB error", fun _ _ => none, 5⟩

/-! ## Helper lemmas -/

/-- The execution trace entry of one block is its name and kwargs, whether the
tool succeeded or raised. -/
lemma execOne_snd (tm : ToolManager) (b : ContentBlock) :
    (execOne tm b).2 = (b.name, b.input) := by
  unfold execOne
  cases tm b.name b.input <;> rfl

/-- Filtering with an if-guarded `filterMap` is mapping over the filtered
list. -/
lemma filterMap_ite {α β : Type} (p : α → Bool) (f : α → β) :
    ∀ l : List α,
      l.filterMap (fun a => if p a then some (f a) else none)
        = (l.filter p).map f := by
  intro l
  induction l with
  | nil => rfl
  | cons a l ih =>
      by_cases h : p a = true
      · simp [List.filterMap_cons, List.filter_cons, h, ih]
      · simp [List.filterMap_cons, List.filter_cons, h, ih]

/-- Closed form of `_execute_tools_and_update_conversation` when the response
contains at least one tool-use block: the assistant turn is appended, every
tool-use block is executed in listed order, and the results are appended as
one aggregated user turn. -/
lemma executeTools_eq (tm : ToolManager) (r : ModelResponse) (msgs : List Message)
    (h : r.content.filter (fun b => b.type == "tool_use") ≠ []) :
    executeToolsAndUpdateConversation tm r msgs =
      (msgs ++ [⟨"assistant", MessageContent.blocks r.content⟩,
                ⟨"user", MessageContent.toolResults
                  ((r.content.filter (fun b => b.type == "tool_use")).map
                    (fun b => (execOne tm b).1))⟩],
       (r.content.filter (fun b => b.type == "tool_use")).map
         (fun b => (b.name, b.input))) := by
  unfold executeToolsAndUpdateConversation
  rw [filterMap_ite]
  cases hne : r.content.filter (fun b => b.type == "tool_use") with
  | nil => exact absurd hne h
  | cons a l =>
      simp only [List.map_cons, List.map_map, List.isEmpty_cons, ite_false,
        Bool.false_eq_true, List.append_assoc, List.cons_append, List.nil_append]
      simp [Function.comp, execOne_snd]

/-- Every `runRounds` invocation records at least one API call. -/
lemma runRounds_apiCalls_pos (tools : Option (List ToolSchema)) (tm : Option ToolManager)
    (n : Nat) (msgs : List Message) (stream : List ModelResponse) :
    1 ≤ (runRounds tools tm n msgs stream).apiCalls.length := by
  cases n with
  | zero => cases stream <;> simp [runRounds]
  | succ n =>
      cases stream with
      | nil => simp [runRounds]
      | cons r rest =>
          cases tm with
          | none => simp [runRounds]
          | some tmv =>
              by_cases hc : (r.stop_reason == "tool_use" && toolsTruthy tools) = true
              · simp [runRounds, hc]
              · simp [runRounds, hc]

/-- The first API call of any `runRounds` invocation sends exactly the
messages the invocation started from. -/
lemma runRounds_get0 (tools : Option (List ToolSchema)) (tm : Option ToolManager)
    (n : Nat) (msgs : List Message) (stream : List ModelResponse) :
    ((runRounds tools tm n msgs stream).apiCalls.get? 0).map ApiCall.messages
      = some msgs := by
  cases n with
  | zero => cases stream <;> simp [runRounds]
  | succ n =>
      cases stream with
      | nil => simp [runRounds]
      | cons r rest =>
          cases tm with
          | none => simp [runRounds]
          | some tmv =>
              by_cases hc : (r.stop_reason == "tool_use" && toolsTruthy tools) = true
              · simp [runRounds, hc]
              · simp [runRounds, hc]

/-- `runRounds` with fuel `n` makes at most `n + 1` API calls. -/
lemma runRounds_apiCalls_le (tools : Option (List ToolSchema)) (tm : Option ToolManager)
    (n : Nat) : ∀ (msgs : List Message) (stream : List ModelResponse),
    (runRounds tools tm n msgs stream).apiCalls.length ≤ n + 1 := by
  induction n with
  | zero =>
      intro msgs stream
      cases stream <;> simp [runRounds]
  | succ n ih =>
      intro msgs stream
      cases stream with
      | nil => simp [runRounds]
      | cons r rest =>
          cases tm with
          | none => simp [runRounds]
          | some tmv =>
              by_cases hc : (r.stop_reason == "tool_use" && toolsTruthy tools) = true
              · have := ih (executeToolsAndUpdateConversation tmv r msgs).1 rest
                simp only [runRounds, hc, if_true, List.length_cons]
                omega
              · simp [runRounds, hc]

/-- When tools are offered and nonempty they are truthy. -/
lemma toolsTruthy_of_ne {ts : List ToolSchema} (h : ts ≠ []) :
    toolsTruthy (some ts) = true := by
  cases ts with
  | nil => exact absurd rfl h
  | cons a l => rfl

/-- When tools are truthy, the round's request carries exactly them. -/
lemma sentTools_of_ne {ts : List ToolSchema} (h : ts ≠ []) :
    sentTools (some ts) = some ts := by
  simp [sentTools, toolsTruthy_of_ne h]

/-- Every envelope `VectorStore.search` produces is either an error envelope
or a wrapped match list. -/
lemma search_cases (vs : VectorStore) (q : String) (cn : Option String)
    (ln : Option Int) :
    (∃ m, vs.search q cn ln = SearchResults.empty m)
    ∨ (∃ ms, vs.search q cn ln = SearchResults.fromMatches ms) := by
  cases cn with
  | none =>
      cases h : vs.contentQuery q (VectorStore.buildFilter none ln) vs.max_results with
      | ok ms =>
          right
          exact ⟨ms, by simp [VectorStore.search, VectorStore.execQuery, h]⟩
      | error m =>
          left
          exact ⟨"Search error: " ++ m, by simp [VectorStore.search, VectorStore.execQuery, h]⟩
  | some c =>
      cases hr : vs.resolveCourseName c with
      | none =>
          left
          exact ⟨"No course found matching " ++ squote ++ c ++ squote,
            by simp [VectorStore.search, hr]⟩
      | some t =>
          cases h : vs.contentQuery q (VectorStore.buildFilter (some t) ln) vs.max_results with
          | ok ms =>
              right
              exact ⟨ms, by simp [VectorStore.search, VectorStore.execQuery, hr, h]⟩
          | error m =>
              left
              exact ⟨"Search error: " ++ m,
                by simp [VectorStore.search, VectorStore.execQuery, hr, h]⟩

/-- Mapping a function of the second component over the zip of two equally
mapped lists collapses to a single map. -/
lemma zipMapSnd {α β γ : Type} (f : α → β) (g : α → γ) (h : β × γ → String)
    (l : List α) :
    (((l.map f).zip (l.map g)).map h) = l.map (fun a => h (f a, g a)) := by
  induction l with
  | nil => rfl
  | cons a l ih => simp [List.zip_cons_cons, ih]

/-! ## Claim theorems -/

/-- C1: with `max_rounds = 2`, tools offered and a tool manager supplied, a
model whose first two responses request one tool call each yields exactly the
two tool executions in order and exactly 3 model calls — the first two
requests carrying the tool schemas and the forced-final request carrying
none — and the returned value is the text of the final call's response. -/
theorem claim1_max_rounds_two_trace (query : String) (ts : List ToolSchema)
    (tm : ToolManager) (r1 r2 r3 : ModelResponse) (rest : List ModelResponse)
    (b1 b2 : ContentBlock) (hts : ts ≠ [])
    (h1 : r1.stop_reason = "tool_use") (hc1 : r1.content = [b1])
    (hb1 : b1.type = "tool_use")
    (h2 : r2.stop_reason = "tool_use") (hc2 : r2.content = [b2])
    (hb2 : b2.type = "tool_use") :
    (generate_response query (some ts) (some tm) 2 (r1 :: r2 :: r3 :: rest)).toolExecs
        = [(b1.name, b1.input), (b2.name, b2.input)]
    ∧ (generate_response query (some ts) (some tm) 2 (r1 :: r2 :: r3 :: rest)).apiCalls.map
          ApiCall.toolsSent = [some ts, some ts, none]
    ∧ (generate_response query (some ts) (some tm) 2 (r1 :: r2 :: r3 :: rest)).result
        = firstText r3.content := by
  have htt := toolsTruthy_of_ne hts
  have hsent := sentTools_of_ne hts
  have hfuel : (2 : Int).toNat = 2 := rfl
  simp only [generate_response, hfuel]
  simp [runRounds, h1, h2, htt, hsent, executeToolsAndUpdateConversation,
    hc1, hc2, hb1, hb2, execOne_snd]

/-- Witness for C1 at the scenario of `test_generate_response_max_rounds_reached`. -/
theorem claim1_witness :
    (generate_response "Complex query" (some ["search_course_content"]) (some okManager) 2
        [toolUseResponse, toolUseResponse, endTurnResponse]).toolExecs
      = [("search_course_content", [("query", "test")]),
         ("search_course_content", [("query", "test")])]
    ∧ (generate_response "Complex query" (some ["search_course_content"]) (some okManager) 2
        [toolUseResponse, toolUseResponse, endTurnResponse]).apiCalls.map ApiCall.toolsSent
      = [some ["search_course_content"], some ["search_course_content"], none]
    ∧ (generate_response "Complex query" (some ["search_course_content"]) (some okManager) 2
        [toolUseResponse, toolUseResponse, endTurnResponse]).result
      = firstText endTurnResponse.content :=
  claim1_max_rounds_two_trace "Complex query" ["search_course_content"] okManager
    toolUseResponse toolUseResponse endTurnResponse []
    (toolUseBlock "search_course_content" "tool_123")
    (toolUseBlock "search_course_content" "tool_123")
    (List.cons_ne_nil _ _) rfl rfl rfl rfl rfl rfl

/-- C2: for every `max_rounds ≥ 0` and every sequence of model responses —
including one that requests tools at every opportunity — the loop terminates
(the embedding is structural recursion on the round budget) and at most
`max_rounds + 1` model calls are issued. -/
theorem claim2_call_bound (query : String) (tools : Option (List ToolSchema))
    (tool_manager : Option ToolManager) (max_rounds : Int)
    (responses : List ModelResponse) (h : 0 ≤ max_rounds) :
    ((generate_response query tools tool_manager max_rounds responses).apiCalls.length : Int)
      ≤ max_rounds + 1 := by
  have hb := runRounds_apiCalls_le tools tool_manager max_rounds.toNat
    [⟨"user", MessageContent.text query⟩] responses
  have ht : (max_rounds.toNat : Int) = max_rounds := Int.toNat_of_nonneg h
  simp only [generate_response]
  omega

/-- Witness for C2: a model that requests a tool on every call still issues at
most 3 calls under `max_rounds = 2`. -/
theorem claim2_witness :
    ((generate_response "q" (some ["search_course_content"]) (some okManager) 2
        [toolUseResponse, toolUseResponse, toolUseResponse,
          toolUseResponse]).apiCalls.length : Int) ≤ 2 + 1 :=
  claim2_call_bound "q" (some ["search_course_content"]) (some okManager) 2
    [toolUseResponse, toolUseResponse, toolUseResponse, toolUseResponse] (by decide)

/-- C3: every envelope the Retrieval Engine produces satisfies the envelope
invariant — an error envelope has all three sequences empty and an error-free
envelope has three sequences of equal length (index `i` across the three
describing one match, as the parallel projections of one match list). -/
theorem claim3_envelope_invariant (vs : VectorStore) (q : String)
    (cn : Option String) (ln : Option Int) (msg : String) (ms : List SearchMatch) :
    (vs.search q cn ln).wfInvariant = true
    ∧ (SearchResults.empty msg).wfInvariant = true
    ∧ (SearchResults.fromMatches ms).wfInvariant = true := by
  refine ⟨?_, rfl, ?_⟩
  · rcases search_cases vs q cn ln with ⟨m, hm⟩ | ⟨l, hm⟩
    · rw [hm]
      simp [SearchResults.wfInvariant, SearchResults.empty]
    · rw [hm]
      simp [SearchResults.wfInvariant, SearchResults.fromMatches]
  · simp [SearchResults.wfInvariant, SearchResults.fromMatches]

/-- C4: the engine's `search` never raises — a failed course-name resolution
yields the "No course found matching '<name>'" envelope and executes no
backend query (the result is the same for every backend `g`), and a backend
exception with message `m` is converted to the "Search error: <m>" envelope,
with or without a (successfully resolved) course filter. -/
theorem claim4_search_error_contract (vs1 vs2 : VectorStore)
    (g : String → Option ChromaFilter → Nat → Except String (List SearchMatch))
    (q c c2 t m : String) (ln : Option Int)
    (h1 : vs1.resolveCourseName c = none)
    (h2 : ∀ f, vs2.contentQuery q f vs2.max_results = Except.error m)
    (h3 : vs2.resolveCourseName c2 = some t) :
    vs1.search q (some c) ln
        = SearchResults.empty ("No course found matching " ++ squote ++ c ++ squote)
    ∧ (VectorStore.mk vs1.resolveCourseName g vs1.getLessonLink vs1.max_results).search
          q (some c) ln
        = SearchResults.empty ("No course found matching " ++ squote ++ c ++ squote)
    ∧ vs2.search q none ln = SearchResults.empty ("Search error: " ++ m)
    ∧ vs2.search q (some c2) ln = SearchResults.empty ("Search error: " ++ m) := by
  refine ⟨?_, ?_, ?_, ?_⟩
  · simp [VectorStore.search, h1]
  · simp [VectorStore.search, h1]
  · simp [VectorStore.search, VectorStore.execQuery, h2]
  · simp [VectorStore.search, VectorStore.execQuery, h2, h3]

/-- Witness for C4 at the scenarios of `test_search_course_not_found` and
`test_search_exception_handling`. -/
theorem claim4_witness :
    failingStore.search "test query" (some "Nonexistent Course") none
        = SearchResults.empty
            ("No course found matching " ++ squote ++ "Nonexistent Course" ++ squote)
    ∧ (VectorStore.mk failingStore.resolveCourseName workingStore.contentQuery
          failingStore.getLessonLink failingStore.max_results).search
          "test query" (some "Nonexistent Course") none
        = SearchResults.empty
            ("No course found matching " ++ squote ++ "Nonexistent Course" ++ squote)
    ∧ resolvingFailingStore.search "test query" none none
        = SearchResults.empty ("Search error: " ++ "ChromaDB error")
    ∧ resolvingFailingStore.search "test query" (some "Python") none
        = SearchResults.empty ("Search error: " ++ "ChromaDB error") :=
  claim4_search_error_contract failingStore resolvingFailingStore
    workingStore.contentQuery "test query" "Nonexistent Course" "Python"
    "Python Programming Basics" "ChromaDB error" none rfl (fun _ => rfl) rfl

/-- C5: `buildFilter` returns no filter when both inputs are absent, a single
equality filter when exactly one is given, and the AND-conjunction of both
equality filters when both are given — for all course titles and lesson
numbers. -/
theorem claim5_build_filter (C : String) (L : Int) :
    VectorStore.buildFilter none none = none
    ∧ VectorStore.buildFilter (some C) none = some (ChromaFilter.courseEq C)
    ∧ VectorStore.buildFilter none (some L) = some (ChromaFilter.lessonEq L)
    ∧ VectorStore.buildFilter (some C) (some L)
        = some (ChromaFilter.and (ChromaFilter.courseEq C) (ChromaFilter.lessonEq L)) :=
  ⟨rfl, rfl, rfl, rfl⟩

/-- C6: a tool execution that raises with message `m` is fed back to the
conversation as an error-flagged tool result whose text is exactly
"Error executing tool: <m>", and the round still advances: a second model
call is issued and its request carries that tool-result turn. -/
theorem claim6_tool_error_keeps_round_alive (query : String) (ts : List ToolSchema)
    (tmv : ToolManager) (mr : Int) (r : ModelResponse) (rest : List ModelResponse)
    (b : ContentBlock) (m : String)
    (hts : ts ≠ []) (hmr : 1 ≤ mr) (hstop : r.stop_reason = "tool_use")
    (hcont : r.content = [b]) (hb : b.type = "tool_use")
    (hexec : tmv b.name b.input = Except.error m) :
    2 ≤ (generate_response query (some ts) (some tmv) mr (r :: rest)).apiCalls.length
    ∧ ((generate_response query (some ts) (some tmv) mr (r :: rest)).apiCalls.get? 1).map
          ApiCall.messages
        = some [⟨"user", MessageContent.text query⟩,
                ⟨"assistant", MessageContent.blocks [b]⟩,
                ⟨"user", MessageContent.toolResults
                    [⟨b.id, "Error executing tool: " ++ m, true⟩]⟩] := by
  have htt := toolsTruthy_of_ne hts
  obtain ⟨k, hk⟩ : ∃ k, mr.toNat = k + 1 := ⟨mr.toNat - 1, by omega⟩
  have hmsg : (executeToolsAndUpdateConversation tmv r
      [⟨"user", MessageContent.text query⟩]).1
      = [⟨"user", MessageContent.text query⟩,
         ⟨"assistant", MessageContent.blocks [b]⟩,
         ⟨"user", MessageContent.toolResults
            [⟨b.id, "Error executing tool: " ++ m, true⟩]⟩] := by
    simp [executeToolsAndUpdateConversation, hcont, hb, execOne, hexec]
  have hpos := runRounds_apiCalls_pos (some ts) (some tmv) k
    (executeToolsAndUpdateConversation tmv r [⟨"user", MessageContent.text query⟩]).1 rest
  have hget := runRounds_get0 (some ts) (some tmv) k
    (executeToolsAndUpdateConversation tmv r [⟨"user", MessageContent.text query⟩]).1 rest
  constructor
  · simp only [generate_response, hk, runRounds]
    simp [hstop, htt]
    omega
  · simp only [generate_response, hk, runRounds]
    simp only [hstop, htt, beq_self_eq_true, Bool.and_self, if_true, List.get?_cons_succ]
    rw [hmsg] at hget
    simpa [hmsg] using hget

/-- Witness for C6 at the scenario of `test_generate_response_tool_error_handling`. -/
theorem claim6_witness :
    2 ≤ (generate_response "Search for something" (some ["search_course_content"])
          (some errManager) 2 [toolUseResponse, endTurnResponse]).apiCalls.length
    ∧ ((generate_response "Search for something" (some ["search_course_content"])
          (some errManager) 2 [toolUseResponse, endTurnResponse]).apiCalls.get? 1).map
          ApiCall.messages
        = some [⟨"user", MessageContent.text "Search for something"⟩,
                ⟨"assistant", MessageContent.blocks
                    [toolUseBlock "search_course_content" "tool_123"]⟩,
                ⟨"user", MessageContent.toolResults
                    [⟨(toolUseBlock "search_course_content" "tool_123").id,
                      "Error executing tool: " ++ "Tool execution failed", true⟩]⟩] :=
  claim6_tool_error_keeps_round_alive "Search for something" ["search_course_content"]
    errManager 2 toolUseResponse [endTurnResponse]
    (toolUseBlock "search_course_content" "tool_123") "Tool execution failed"
    (List.cons_ne_nil _ _) (by decide) rfl rfl rfl rfl

/-- C7: within one round, the tool-use blocks of the model's response are
executed sequentially in listed order, their results are appended as exactly
one aggregated tool-result turn (not one per call), and the round adds
exactly two turns to the conversation. -/
theorem claim7_single_aggregated_turn (tm : ToolManager) (r : ModelResponse)
    (msgs : List Message)
    (h : r.content.filter (fun b => b.type == "tool_use") ≠ []) :
    (executeToolsAndUpdateConversation tm r msgs).1
        = msgs ++ [⟨"assistant", MessageContent.blocks r.content⟩,
                   ⟨"user", MessageContent.toolResults
                     ((r.content.filter (fun b => b.type == "tool_use")).map
                       (fun b => (execOne tm b).1))⟩]
    ∧ (executeToolsAndUpdateConversation tm r msgs).2
        = (r.content.filter (fun b => b.type == "tool_use")).map
            (fun b => (b.name, b.input))
    ∧ (executeToolsAndUpdateConversation tm r msgs).1.length = msgs.length + 2 := by
  have he := executeTools_eq tm r msgs h
  refine ⟨?_, ?_, ?_⟩
  · rw [he]
  · rw [he]
  · rw [he]
    simp

/-- Witness for C7 at the two-tool scenario of
`test_handle_tool_execution_multiple_tools`. -/
theorem claim7_witness :
    (executeToolsAndUpdateConversation okManager twoToolResponse []).1
        = [] ++ [⟨"assistant", MessageContent.blocks twoToolResponse.content⟩,
                 ⟨"user", MessageContent.toolResults
                   ((twoToolResponse.content.filter (fun b => b.type == "tool_use")).map
                     (fun b => (execOne okManager b).1))⟩]
    ∧ (executeToolsAndUpdateConversation okManager twoToolResponse []).2
        = (twoToolResponse.content.filter (fun b => b.type == "tool_use")).map
            (fun b => (b.name, b.input))
    ∧ (executeToolsAndUpdateConversation okManager twoToolResponse []).1.length
        = ([] : List Message).length + 2 :=
  claim7_single_aggregated_turn okManager twoToolResponse [] (by decide)

/-- C8: one content-search execution whose envelope carries N matches leaves
exactly N citations in `last_sources`, in match order, and the new list fully
replaces the previous state (`prev` is arbitrary and absent from the result);
an error envelope or an empty envelope clears the citations. -/
theorem claim8_citations_replace (store : VectorStore) (prev : List String)
    (q : String) (cn : Option String) (ln : Option Int) :
    (CourseSearchTool.execute ⟨store, prev⟩ q cn ln).2.last_sources
      = (if (store.search q cn ln).error.isSome then []
         else (store.search q cn ln).metadata.map (citationFor store))
    ∧ (CourseSearchTool.execute ⟨store, prev⟩ q cn ln).2.last_sources.length
      = (if (store.search q cn ln).error.isSome then 0
         else (store.search q cn ln).documents.length) := by
  rcases search_cases store q cn ln with ⟨m, hm⟩ | ⟨ms, hm⟩
  · simp [CourseSearchTool.execute, hm, SearchResults.empty]
  · cases ms with
    | nil => simp [CourseSearchTool.execute, hm, SearchResults.fromMatches]
    | cons x xs =>
        simp [CourseSearchTool.execute, hm, SearchResults.fromMatches, zipMapSnd]

/-- C9: with `max_rounds ≤ 0` the round loop never runs — exactly one model
call is made, its request carries no tool schemas even when tools and a tool
manager are supplied, no tool is ever executed, and the text of that call's
response is returned. -/
theorem claim9_nonpositive_rounds (query : String) (tools : Option (List ToolSchema))
    (tm : Option ToolManager) (mr : Int) (r : ModelResponse)
    (rest : List ModelResponse) (hmr : mr ≤ 0) :
    (generate_response query tools tm mr (r :: rest)).apiCalls
        = [⟨[⟨"user", MessageContent.text query⟩], none⟩]
    ∧ (generate_response query tools tm mr (r :: rest)).toolExecs = []
    ∧ (generate_response query tools tm mr (r :: rest)).result = firstText r.content := by
  have h0 : mr.toNat = 0 := by omega
  refine ⟨?_, ?_, ?_⟩ <;> simp [generate_response, h0, runRounds]

/-- Witness for C9 at `max_rounds = -1` with tools and a tool manager supplied. -/
theorem claim9_witness :
    (generate_response "Test query" (some ["test_tool"]) (some okManager) (-1)
        [endTurnResponse]).apiCalls
        = [⟨[⟨"user", MessageContent.text "Test query"⟩], none⟩]
    ∧ (generate_response "Test query" (some ["test_tool"]) (some okManager) (-1)
        [endTurnResponse]).toolExecs = []
    ∧ (generate_response "Test query" (some ["test_tool"]) (some okManager) (-1)
        [endTurnResponse]).result = firstText endTurnResponse.content :=
  claim9_nonpositive_rounds "Test query" (some ["test_tool"]) (some okManager) (-1)
    endTurnResponse [] (by decide)

/-- C10: the terminating response's text is read unguarded from the first
content block (`none` models the crash when the content list is empty or the
block carries no text); in particular, when the stop reason is tool use but
the tool manager is absent, tools are absent, or tools are the falsy empty
list, the returned value is read from the first (tool-use) block rather than
from any later text block. -/
theorem claim10_unguarded_first_block (query : String) (ts : List ToolSchema)
    (tmv : ToolManager) (mr : Int) (r : ModelResponse) (rest : List ModelResponse)
    (b : ContentBlock) (bs : List ContentBlock)
    (hmr : 1 ≤ mr) (hstop : r.stop_reason = "tool_use") (hcont : r.content = b :: bs) :
    (generate_response query (some ts) none mr (r :: rest)).result = b.text
    ∧ (generate_response query none (some tmv) mr (r :: rest)).result = b.text
    ∧ (generate_response query (some []) (some tmv) mr (r :: rest)).result = b.text := by
  obtain ⟨k, hk⟩ : ∃ k, mr.toNat = k + 1 := ⟨mr.toNat - 1, by omega⟩
  refine ⟨?_, ?_, ?_⟩ <;>
    simp [generate_response, hk, runRounds, hstop, hcont, toolsTruthy, firstText]

/-- Witness for C10 at the scenario of `test_tool_execution_without_tool_manager`:
the first block is a tool-use block also carrying a text attribute, and that
text is what comes back. -/
theorem claim10_witness :
    (generate_response "Test query" (some ["test_tool"]) none 2
        [toolUseTextResponse]).result = toolUseBlockWithText.text
    ∧ (generate_response "Test query" none (some okManager) 2
        [toolUseTextResponse]).result = toolUseBlockWithText.text
    ∧ (generate_response "Test query" (some []) (some okManager) 2
        [toolUseTextResponse]).result = toolUseBlockWithText.text :=
  claim10_unguarded_first_block "Test query" ["test_tool"] okManager 2
    toolUseTextResponse [] toolUseBlockWithText [] (by decide) rfl rfl

end RagCore
